import Mathlib

/-!
# Verification of the annotated deep-learning implementations

Shallow embedding of the four Python source files of the repository:

* `labml_nn/distillation/large.py`
* `labml_nn/gan/stylegan/__init__.py`
* `labml_nn/transformers/retro/model.py`
* `labml_nn/unet/carvana.py`

Tensors are embedded as total functions from natural-number indices to real
(or rational) numbers, with the shape parameters carried separately;
index arithmetic follows PyTorch `reshape`/`view` semantics (row-major
reinterpretation of the flat buffer).  Calls into the external tensor
framework (autograd, image decoding) are modelled as inputs to the
embedded functions.
-/

open Finset

/-! ## File inventory

The top-level definitions of each source file, classified by kind.  This is
the data model for the structural claims about what each file defines.
-/

/-- The kind of a top-level Python definition, as relevant to the spec:
model-layer classes (`nn.Module` subclasses), dataset classes
(`torch.utils.data.Dataset` subclasses), configuration classes, functions
that set up and run a training loop, test functions, helper functions,
and the systems-infrastructure kinds the spec denies the presence of. -/
inductive PyDefKind where
  | modelLayerClass
  | datasetClass
  | configClass
  | trainingLoopFn
  | testFn
  | helperFn
  | scheduler
  | wireProtocol
  | storageEngine
  | concurrencyPrimitive
  deriving DecidableEq, Repr

/-- A top-level Python definition: its name and its kind. -/
structure PyDef where
  name : String
  kind : PyDefKind
  deriving DecidableEq, Repr

/-- Top-level definitions of `labml_nn/distillation/large.py`
(lines 9, 13, 32, 40): the `Configs` subclass, the `LargeModel` VGG
model, the `_large_model` config option and `main`, which creates the
experiment and runs the training loop (`conf.run()`). -/
def largePyDefs : List PyDef :=
  [⟨"Configs", .configClass⟩,
   ⟨"LargeModel", .modelLayerClass⟩,
   ⟨"_large_model", .helperFn⟩,
   ⟨"main", .trainingLoopFn⟩]

/-- Top-level definitions of `labml_nn/gan/stylegan/__init__.py`
(lines 19-489).  `Configs.step`/`Configs.run` hold the optimization loop
and `main` runs it. -/
def styleganPyDefs : List PyDef :=
  [⟨"MappingNetwork", .modelLayerClass⟩,
   ⟨"Discriminator", .modelLayerClass⟩,
   ⟨"DiscriminatorBlock", .modelLayerClass⟩,
   ⟨"Generator", .modelLayerClass⟩,
   ⟨"GeneratorBlock", .modelLayerClass⟩,
   ⟨"ToRGB", .modelLayerClass⟩,
   ⟨"Conv2dWeightModulate", .modelLayerClass⟩,
   ⟨"DownSample", .modelLayerClass⟩,
   ⟨"UpSample", .modelLayerClass⟩,
   ⟨"Smooth", .modelLayerClass⟩,
   ⟨"EqualizedLinear", .modelLayerClass⟩,
   ⟨"EqualizedConv2d", .modelLayerClass⟩,
   ⟨"PathLengthPenalty", .modelLayerClass⟩,
   ⟨"Dataset", .datasetClass⟩,
   ⟨"cycle", .helperFn⟩,
   ⟨"Configs", .configClass⟩,
   ⟨"main", .trainingLoopFn⟩]

/-- Top-level definitions of `labml_nn/transformers/retro/model.py`
(lines 23-480): model-layer classes and the `_test` function that runs a
single forward pass.  The file contains no training loop. -/
def retroModelPyDefs : List PyDef :=
  [⟨"RotaryPositionalEmbeddings", .modelLayerClass⟩,
   ⟨"SelfAttention", .modelLayerClass⟩,
   ⟨"CrossAttention", .modelLayerClass⟩,
   ⟨"ChunkedCrossAttention", .modelLayerClass⟩,
   ⟨"FeedForward", .modelLayerClass⟩,
   ⟨"Encoder", .modelLayerClass⟩,
   ⟨"RetroModel", .modelLayerClass⟩,
   ⟨"_test", .testFn⟩]

/-- Top-level definitions of `labml_nn/unet/carvana.py` (line 11): only
the `CarvanaDataset` class.  The file defines no `nn.Module` subclass and
no training loop (the `__main__` block only prints one dataset item). -/
def carvanaPyDefs : List PyDef :=
  [⟨"CarvanaDataset", .datasetClass⟩]

/-- The four source files of the repository, with their inventories. -/
def repoFiles : List (String × List PyDef) :=
  [("distillation/large.py", largePyDefs),
   ("gan/stylegan/__init__.py", styleganPyDefs),
   ("transformers/retro/model.py", retroModelPyDefs),
   ("unet/carvana.py", carvanaPyDefs)]

/-- A file "defines model layers" when its inventory has a model-layer
class. -/
def definesModelLayers (defs : List PyDef) : Bool :=
  defs.any (fun d => d.kind == .modelLayerClass)

/-- A file "defines a training loop" when its inventory has a
training-loop function. -/
def definesTrainingLoop (defs : List PyDef) : Bool :=
  defs.any (fun d => d.kind == .trainingLoopFn)

/-- A definition is systems infrastructure when it is a scheduler, a wire
protocol, a storage engine or a concurrency primitive. -/
def isSystemsInfra (d : PyDef) : Bool :=
  d.kind == .scheduler || d.kind == .wireProtocol ||
  d.kind == .storageEngine || d.kind == .concurrencyPrimitive

/-- Arguments the StyleGAN `Configs.init` passes to the external
`torch.utils.data.DataLoader` (`gan/stylegan/__init__.py` lines 380-382):
`batch_size=self.batch_size` (default 24), `num_workers=32`,
`shuffle=True`, `drop_last=True`, `pin_memory=True`.  The worker
parallelism lives entirely inside the external framework. -/
structure DataLoaderArgs where
  batch_size : ℕ
  num_workers : ℕ
  shuffle : Bool
  drop_last : Bool
  pin_memory : Bool
  deriving DecidableEq, Repr

/-- The DataLoader arguments used by `Configs.init` with the default
`batch_size = 24`. -/
def styleganDataLoaderArgs : DataLoaderArgs :=
  ⟨24, 32, true, true, true⟩

/-! ## `labml_nn/unet/carvana.py`: `CarvanaDataset`

Pixel tensors are embedded over `ℚ` (the transformed masks hold exact
small rationals); a tensor of shape `[c, h, w]` is a function
`ℕ → ℕ → ℕ → ℚ` together with the shape parameters.  The external
`Image.open` plus `torchvision` transform pipeline is modelled as a
loading function from file names to tensors, supplied as an argument. -/

/-- The pixel values of a `[c, h, w]` tensor, as a list. -/
def pixList (c h w : ℕ) (t : ℕ → ℕ → ℕ → ℚ) : List ℚ :=
  (List.range c).flatMap fun ci =>
    (List.range h).flatMap fun i =>
      (List.range w).map fun j => t ci i j

/-- `Tensor.max()` over a `[c, h, w]` tensor.  Faithful to PyTorch on
nonempty tensors (`c, h, w > 0`); PyTorch raises on empty tensors, which
are outside the modelled domain. -/
def tensorMax (c h w : ℕ) (t : ℕ → ℕ → ℕ → ℚ) : ℚ :=
  (pixList c h w t).foldr max (t 0 0 0)

/-- `CarvanaDataset.__init__` (carvana.py lines 12-16), with directories
given as lists of file stems.  `images` maps each image stem to its file;
`masks` maps each mask stem minus its last 5 characters to its file;
`ids` is the list of image stems. -/
structure CarvanaDataset where
  images : List (String × String)
  masks : List (String × String)
  ids : List String
  deriving Repr

/-- Build the dataset from the stems found in the image directory and the
mask directory, mirroring the two dict comprehensions
`{p.stem: p for p in image_path.iterdir()}` and
`{p.stem[:-5]: p for p in mask_path.iterdir()}` (lines 13-14) and
`ids = list(self.images.keys())` (line 16).  Keys are assumed distinct
(Python dicts would keep the last entry per key; `List.lookup` keeps the
first, which agrees on distinct keys). -/
def CarvanaDataset.mk2 (imageStems maskStems : List String) : CarvanaDataset :=
  { images := imageStems.map fun s => (s, s)
    masks := maskStems.map fun s => (s.dropRight 5, s)
    ids := imageStems }

/-- `CarvanaDataset.__getitem__` (lines 23-32).  `load` stands for the
external `Image.open` + `transforms` pipeline, producing a `[c, h, w]`
tensor from a file name.  A missing dictionary key is a Python
`KeyError`, modelled by `none`.  The mask is divided by its maximum with
no guard (line 30). -/
def CarvanaDataset.getitem (ds : CarvanaDataset) (c h w : ℕ)
    (load : String → (ℕ → ℕ → ℕ → ℚ)) (idx : ℕ) :
    Option ((ℕ → ℕ → ℕ → ℚ) × (ℕ → ℕ → ℕ → ℚ)) := do
  let id_ ← ds.ids[idx]?
  let imageFile ← ds.images.lookup id_
  let maskFile ← ds.masks.lookup id_
  let image := load imageFile
  let mask := load maskFile
  let m := tensorMax c h w mask
  return (image, fun ci i j => mask ci i j / m)

/-- `CarvanaDataset.__len__` (lines 34-35). -/
def CarvanaDataset.len (ds : CarvanaDataset) : ℕ :=
  ds.ids.length

/-! ## Shared tensor operations (real-valued)

The RETRO and StyleGAN models compute with floating-point tensors; the
embedding uses exact real arithmetic. -/

/-- `torch.nn.functional.linear` / `nn.Linear`: `y = x Aᵀ + b` with weight
`W : [out, in]`. -/
noncomputable def Flinear (inFeatures : ℕ) (W : ℕ → ℕ → ℝ) (b : ℕ → ℝ)
    (x : ℕ → ℝ) (o : ℕ) : ℝ :=
  (∑ c ∈ Finset.range inFeatures, x c * W o c) + b o

/-- The default `nn.LayerNorm` epsilon, `1e-5`. -/
noncomputable def layerNormEps : ℝ := 1 / 100000

/-- `nn.LayerNorm` over the last dimension of size `d` with elementwise
affine parameters `g` (gamma) and `bta` (beta):
`(x - mean) / sqrt(var + eps) * g + bta` with the biased variance. -/
noncomputable def layerNorm (d : ℕ) (g bta : ℕ → ℝ) (x : ℕ → ℝ) (i : ℕ) : ℝ :=
  let mu := (∑ j ∈ Finset.range d, x j) / d
  let varx := (∑ j ∈ Finset.range d, (x j - mu) ^ 2) / d
  (x i - mu) / Real.sqrt (varx + layerNormEps) * g i + bta i

/-! ## `labml_nn/transformers/retro/model.py`: rotary embeddings -/

namespace RotaryPositionalEmbeddings

/-- `self.theta` (model.py line 41): element `i` of
`1 / base ** (torch.arange(0, d, 2) / d)`, i.e. `base ^ (-(2 i) / d)`
written as a reciprocal of a real power. -/
noncomputable def theta (base d i : ℕ) : ℝ :=
  1 / (base : ℝ) ^ ((2 * (i : ℝ)) / (d : ℝ))

/-- The number of elements of `torch.arange(0, d, 2)`, i.e. `⌈d/2⌉`. -/
def numTheta (d : ℕ) : ℕ := (d + 1) / 2

/-- `idx_theta2` (line 61): `torch.cat([idx_theta, idx_theta], dim=1)`
where `idx_theta[m][i] = m * theta i` (line 57). -/
noncomputable def idxTheta2 (base d m j : ℕ) : ℝ :=
  if j < numTheta d then (m : ℝ) * theta base d j
  else (m : ℝ) * theta base d (j - numTheta d)

/-- `neg_half_x` (line 65):
`torch.cat([-x[:, :, :, d_2:], x[:, :, :, :d_2]], dim=-1)` on the last
dimension of a fixed batch/position/head slice `x` of length `d`. -/
def negHalf (d : ℕ) (x : ℕ → ℝ) (j : ℕ) : ℝ :=
  let d2 := d / 2
  if j < d - d2 then -x (d2 + j) else x (j - (d - d2))

/-- `RotaryPositionalEmbeddings.forward` (lines 43-80) on a tensor of
shape `[batch_size, seq_len, n_heads, d]`:
`rx = x * idx_theta2.cos() + neg_half_x * idx_theta2.sin()` (line 77),
broadcast over batch and heads; `m` is the sequence position. -/
noncomputable def forward (base d : ℕ) (x : ℕ → ℕ → ℕ → ℕ → ℝ)
    (b m hh j : ℕ) : ℝ :=
  x b m hh j * Real.cos (idxTheta2 base d m j) +
    negHalf d (x b m hh) j * Real.sin (idxTheta2 base d m j)

end RotaryPositionalEmbeddings

/-! ## `labml_nn/transformers/retro/model.py`: self-attention -/

/-- `SelfAttention.__init__` (model.py lines 90-121): the head
configuration, the causality flag and the parameters of the `query`,
`key`, `value`, `norm` and `output` layers. -/
structure SelfAttention where
  d_model : ℕ
  n_heads : ℕ
  d_k : ℕ
  is_causal : Bool
  query_w : ℕ → ℕ → ℝ
  query_b : ℕ → ℝ
  key_w : ℕ → ℕ → ℝ
  key_b : ℕ → ℝ
  value_w : ℕ → ℕ → ℝ
  value_b : ℕ → ℝ
  norm_g : ℕ → ℝ
  norm_b : ℕ → ℝ
  output_w : ℕ → ℕ → ℝ
  output_b : ℕ → ℝ

namespace SelfAttention

/-- `self.scale = 1 / math.sqrt(self.d_k)` (line 104). -/
noncomputable def scale (sa : SelfAttention) : ℝ := 1 / Real.sqrt (sa.d_k : ℝ)

/-- Pre-normalization `h = self.norm(h)` (line 148) of the slice at batch
`bi`, position `i`. -/
noncomputable def normed (sa : SelfAttention) (h : ℕ → ℕ → ℕ → ℝ)
    (bi i : ℕ) : ℕ → ℝ :=
  layerNorm sa.d_model sa.norm_g sa.norm_b (h bi i)

/-- `q = self.query(h).view(mh_shape)` (line 153): the head view maps
`(hh, dd)` to flat feature `hh * d_k + dd`. -/
noncomputable def q (sa : SelfAttention) (h : ℕ → ℕ → ℕ → ℝ)
    (bi i hh dd : ℕ) : ℝ :=
  Flinear sa.d_model sa.query_w sa.query_b (sa.normed h bi i) (hh * sa.d_k + dd)

/-- `k = self.key(h).view(mh_shape)` (line 154). -/
noncomputable def k (sa : SelfAttention) (h : ℕ → ℕ → ℕ → ℝ)
    (bi i hh dd : ℕ) : ℝ :=
  Flinear sa.d_model sa.key_w sa.key_b (sa.normed h bi i) (hh * sa.d_k + dd)

/-- `v = self.value(h).view(mh_shape)` (line 155). -/
noncomputable def v (sa : SelfAttention) (h : ℕ → ℕ → ℕ → ℝ)
    (bi i hh dd : ℕ) : ℝ :=
  Flinear sa.d_model sa.value_w sa.value_b (sa.normed h bi i) (hh * sa.d_k + dd)

/-- `q = self.rotary_pe(q)` (line 158); the rotary module is built with
`d = d_k` and the default `base = 10_000` (line 118). -/
noncomputable def qRot (sa : SelfAttention) (h : ℕ → ℕ → ℕ → ℝ)
    (bi i hh dd : ℕ) : ℝ :=
  RotaryPositionalEmbeddings.forward 10000 sa.d_k (sa.q h) bi i hh dd

/-- `k = self.rotary_pe(k)` (line 159). -/
noncomputable def kRot (sa : SelfAttention) (h : ℕ → ℕ → ℕ → ℝ)
    (bi i hh dd : ℕ) : ℝ :=
  RotaryPositionalEmbeddings.forward 10000 sa.d_k (sa.k h) bi i hh dd

/-- `attn = torch.einsum('bihd,bjhd->bhij', q, k)` followed by
`attn = attn * self.scale` (lines 162-164). -/
noncomputable def attnScores (sa : SelfAttention) (h : ℕ → ℕ → ℕ → ℝ)
    (bi hh i j : ℕ) : ℝ :=
  (∑ dd ∈ Finset.range sa.d_k, sa.qRot h bi i hh dd * sa.kRot h bi j hh dd) *
    sa.scale

/-- `torch.tril(attn.new_ones(...))` (line 135): the lower-triangular
0/1 mask. -/
def tril (i j : ℕ) : ℝ := if j ≤ i then 1 else 0

/-- `SelfAttention.mask_attention` (lines 123-137): identity for
non-causal attention; otherwise `masked_fill(mask == 0, -inf)`, with
`-inf` modelled as `⊥ : WithBot ℝ`. -/
noncomputable def mask_attention (sa : SelfAttention) (attn : ℕ → ℕ → ℕ → ℕ → ℝ)
    (bi hh i j : ℕ) : WithBot ℝ :=
  if sa.is_causal = false then (attn bi hh i j : WithBot ℝ)
  else if tril i j = 0 then ⊥ else (attn bi hh i j : WithBot ℝ)

end SelfAttention

/-- The exponential used by softmax on scores that may be `-inf`:
`exp(-inf) = 0`. -/
noncomputable def expW (s : WithBot ℝ) : ℝ :=
  WithBot.recBotCoe 0 Real.exp s

/-- `nn.Softmax(dim=-1)` over a row of `n` scores that may contain
`-inf`. -/
noncomputable def softmaxW (n : ℕ) (s : ℕ → WithBot ℝ) (j : ℕ) : ℝ :=
  expW (s j) / ∑ j2 ∈ Finset.range n, expW (s j2)

namespace SelfAttention

/-- `attn = self.softmax(attn)` (line 170) applied to the masked scores,
for a sequence length `seq`. -/
noncomputable def attnProb (sa : SelfAttention) (h : ℕ → ℕ → ℕ → ℝ)
    (seq bi hh i j : ℕ) : ℝ :=
  softmaxW seq (fun j2 => sa.mask_attention (sa.attnScores h) bi hh i j2) j

/-- `h = torch.einsum("bhij,bjhd->bihd", attn, v)` (line 173). -/
noncomputable def attnOut (sa : SelfAttention) (h : ℕ → ℕ → ℕ → ℝ)
    (seq bi i hh dd : ℕ) : ℝ :=
  ∑ j ∈ Finset.range seq, sa.attnProb h seq bi hh i j * sa.v h bi j hh dd

/-- `SelfAttention.forward` (lines 139-184): reshape the attention output
to `[.., n_heads * d_k]`, apply the output layer and add the residual. -/
noncomputable def forward (sa : SelfAttention) (h : ℕ → ℕ → ℕ → ℝ)
    (seq bi i dm : ℕ) : ℝ :=
  Flinear (sa.n_heads * sa.d_k) sa.output_w sa.output_b
      (fun f => sa.attnOut h seq bi i (f / sa.d_k) (f % sa.d_k)) dm +
    h bi i dm

end SelfAttention

/-! ## `labml_nn/transformers/retro/model.py`: chunked cross-attention -/

/-- `ChunkedCrossAttention.__init__` (model.py lines 284-313). -/
structure ChunkedCrossAttention where
  d_model : ℕ
  n_heads : ℕ
  d_k : ℕ
  chunk_len : ℕ
  query_w : ℕ → ℕ → ℝ
  query_b : ℕ → ℝ
  key_w : ℕ → ℕ → ℝ
  key_b : ℕ → ℝ
  value_w : ℕ → ℕ → ℝ
  value_b : ℕ → ℝ
  norm_g : ℕ → ℝ
  norm_b : ℕ → ℝ
  output_w : ℕ → ℕ → ℝ
  output_b : ℕ → ℝ

namespace ChunkedCrossAttention

/-- `self.scale = 1 / math.sqrt(self.d_k)` (line 299). -/
noncomputable def scale (ca : ChunkedCrossAttention) : ℝ :=
  1 / Real.sqrt (ca.d_k : ℝ)

/-- Lines 337-344 applied to `h : [batch, seq, d_model]`: drop the first
`chunk_len - 1` positions (line 337), pre-norm (line 339), zero-pad on
the right to `chunks * chunk_len` positions (lines 341-342) and reshape
into `[batch, chunks, chunk_len, d_model]` (line 344).  `t` is the
position inside the padded sequence of length `chunks * chunk_len`. -/
noncomputable def hChunk (ca : ChunkedCrossAttention) (h : ℕ → ℕ → ℕ → ℝ)
    (seq : ℕ) (bi c i dm : ℕ) : ℝ :=
  let t := c * ca.chunk_len + i
  if t < seq - (ca.chunk_len - 1) then
    layerNorm ca.d_model ca.norm_g ca.norm_b (h bi (t + (ca.chunk_len - 1))) dm
  else 0

/-- `q = self.query(h).view(...)` (line 347) on the chunked input. -/
noncomputable def q (ca : ChunkedCrossAttention) (h : ℕ → ℕ → ℕ → ℝ)
    (seq : ℕ) (bi c i hh dd : ℕ) : ℝ :=
  Flinear ca.d_model ca.query_w ca.query_b (ca.hChunk h seq bi c i)
    (hh * ca.d_k + dd)

/-- `k = self.key(e).view(...)` (line 349) on the retrieved neighbors
`e : [batch, chunks, neighbors, neighbor_len, d_model]`. -/
noncomputable def k (ca : ChunkedCrossAttention) (e : ℕ → ℕ → ℕ → ℕ → ℕ → ℝ)
    (bi c nb j hh dd : ℕ) : ℝ :=
  Flinear ca.d_model ca.key_w ca.key_b (e bi c nb j) (hh * ca.d_k + dd)

/-- `v = self.value(e).view(...)` (line 350). -/
noncomputable def v (ca : ChunkedCrossAttention) (e : ℕ → ℕ → ℕ → ℕ → ℕ → ℝ)
    (bi c nb j hh dd : ℕ) : ℝ :=
  Flinear ca.d_model ca.value_w ca.value_b (e bi c nb j) (hh * ca.d_k + dd)

/-- `attn = torch.einsum('bcihd,bcnjhd->bchinj', q, k)` scaled by
`self.scale` (lines 355-357). -/
noncomputable def attnScores (ca : ChunkedCrossAttention)
    (h : ℕ → ℕ → ℕ → ℝ) (e : ℕ → ℕ → ℕ → ℕ → ℕ → ℝ)
    (seq : ℕ) (bi c hh i nb j : ℕ) : ℝ :=
  (∑ dd ∈ Finset.range ca.d_k,
      ca.q h seq bi c i hh dd * ca.k e bi c nb j hh dd) * ca.scale

/-- Softmax over the flattened last two dimensions
`(neighbors, neighbor_len)` (line 360): position `(nb, j)` flattens to
`nb * neighbor_len + j`. -/
noncomputable def attnProb (ca : ChunkedCrossAttention)
    (h : ℕ → ℕ → ℕ → ℝ) (e : ℕ → ℕ → ℕ → ℕ → ℕ → ℝ)
    (seq neighbors neighborLen : ℕ) (bi c hh i nb j : ℕ) : ℝ :=
  Real.exp (ca.attnScores h e seq bi c hh i nb j) /
    ∑ f ∈ Finset.range (neighbors * neighborLen),
      Real.exp (ca.attnScores h e seq bi c hh i (f / neighborLen) (f % neighborLen))

/-- `h = torch.einsum("bchinj,bcnjhd->bcihd", attn, v)` (line 363). -/
noncomputable def attnOut (ca : ChunkedCrossAttention)
    (h : ℕ → ℕ → ℕ → ℝ) (e : ℕ → ℕ → ℕ → ℕ → ℕ → ℝ)
    (seq neighbors neighborLen : ℕ) (bi c i hh dd : ℕ) : ℝ :=
  ∑ nb ∈ Finset.range neighbors, ∑ j ∈ Finset.range neighborLen,
    ca.attnProb h e seq neighbors neighborLen bi c hh i nb j *
      ca.v e bi c nb j hh dd

/-- Lines 367-371: reshape the attention output to
`[batch, chunks * chunk_len, n_heads * d_k]` and apply the final linear
layer; `t` indexes the `chunks * chunk_len` positions. -/
noncomputable def outputAt (ca : ChunkedCrossAttention)
    (h : ℕ → ℕ → ℕ → ℝ) (e : ℕ → ℕ → ℕ → ℕ → ℕ → ℝ)
    (seq neighbors neighborLen : ℕ) (bi t dm : ℕ) : ℝ :=
  Flinear (ca.n_heads * ca.d_k) ca.output_w ca.output_b
    (fun f => ca.attnOut h e seq neighbors neighborLen bi
      (t / ca.chunk_len) (t % ca.chunk_len) (f / ca.d_k) (f % ca.d_k)) dm

/-- `ChunkedCrossAttention.forward` (lines 315-377).  When `chunks = 0`
the input `h` is returned unchanged (lines 325-326).  Otherwise the
output is left-padded with `chunk_len - 1` zero embeddings (line 374),
truncated to the residual length `seq` and added to the residual
(line 377); the result is indexed at `(bi, i, dm)` with `i < seq`. -/
noncomputable def forward (ca : ChunkedCrossAttention)
    (h : ℕ → ℕ → ℕ → ℝ) (e : ℕ → ℕ → ℕ → ℕ → ℕ → ℝ)
    (seq chunks neighbors neighborLen : ℕ) (bi i dm : ℕ) : ℝ :=
  if chunks = 0 then h bi i dm
  else
    (if i < ca.chunk_len - 1 then 0
     else ca.outputAt h e seq neighbors neighborLen bi (i - (ca.chunk_len - 1)) dm) +
      h bi i dm

end ChunkedCrossAttention

/-! ## `labml_nn/gan/stylegan/__init__.py`: weight-modulated convolution -/

/-- Zero-padded lookup into a `[C, hIn, wIn]` tensor at possibly
out-of-range spatial positions, as produced by `F.conv2d`'s `padding`
argument. -/
def paddedAt (hIn wIn : ℕ) (inp : ℕ → ℕ → ℕ → ℝ) (ch : ℕ) (i j : ℤ) : ℝ :=
  if 0 ≤ i ∧ i < (hIn : ℤ) ∧ 0 ≤ j ∧ j < (wIn : ℤ) then inp ch i.toNat j.toNat
  else 0

/-- `torch.nn.functional.conv2d` with a batch of one, square kernel `kk`,
symmetric zero padding `pad`, stride 1 and `groups` groups: output
channel `o` belongs to group `o / (cOut / groups)` and reads the input
channels of that group. -/
noncomputable def conv2dGrouped (groups cInTot cOut kk pad hIn wIn : ℕ)
    (inp : ℕ → ℕ → ℕ → ℝ) (wgt : ℕ → ℕ → ℕ → ℕ → ℝ) (o i j : ℕ) : ℝ :=
  let cig := cInTot / groups
  let cog := cOut / groups
  ∑ ci ∈ Finset.range cig, ∑ ki ∈ Finset.range kk, ∑ kj ∈ Finset.range kk,
    paddedAt hIn wIn inp (o / cog * cig + ci)
        ((i : ℤ) + (ki : ℤ) - (pad : ℤ)) ((j : ℤ) + (kj : ℤ) - (pad : ℤ)) *
      wgt o ci ki kj

/-- `Conv2dWeightModulate.__init__` (stylegan `__init__.py`
lines 171-183): configuration and the raw weight parameter of shape
`[out_features, in_features, kernel, kernel]`. -/
structure Conv2dWeightModulate where
  in_features : ℕ
  out_features : ℕ
  kernel : ℕ
  demodulate : Bool
  lr_mul : ℝ
  eps : ℝ
  weight : ℕ → ℕ → ℕ → ℕ → ℝ

namespace Conv2dWeightModulate

/-- `self.filters = out_features` (line 174). -/
def filters (c : Conv2dWeightModulate) : ℕ := c.out_features

/-- `self.padding = (self.kernel - 1) // 2` (line 177). -/
def padding (c : Conv2dWeightModulate) : ℕ := (c.kernel - 1) / 2

/-- `self.runtime_coef = lr_mul * he_std` with
`he_std = 1 / sqrt(in_features * kernel_size * kernel_size)`
(lines 179, 183). -/
noncomputable def runtime_coef (c : Conv2dWeightModulate) : ℝ :=
  c.lr_mul * (1 / Real.sqrt ((c.in_features * c.kernel * c.kernel : ℕ) : ℝ))

/-- `weights = (self.weight[None, :] * runtime_coef) * (style + 1)`
(lines 188-190): the per-sample modulated weights, of shape
`[b, out_features, in_features, kernel, kernel]`. -/
noncomputable def modWeights (c : Conv2dWeightModulate) (style : ℕ → ℕ → ℝ)
    (n o ci ki kj : ℕ) : ℝ :=
  c.weight o ci ki kj * c.runtime_coef * (style n ci + 1)

/-- `d = torch.rsqrt((weights ** 2).sum(dim=(2, 3, 4), keepdim=True) + eps)`
(line 193): the demodulation factor for sample `n`, output channel `o`. -/
noncomputable def demodFactor (c : Conv2dWeightModulate) (style : ℕ → ℕ → ℝ)
    (n o : ℕ) : ℝ :=
  1 / Real.sqrt
    ((∑ ci ∈ Finset.range c.in_features, ∑ ki ∈ Finset.range c.kernel,
        ∑ kj ∈ Finset.range c.kernel, c.modWeights style n o ci ki kj ^ 2) +
      c.eps)

/-- The per-sample weights actually convolved with: modulated, and
additionally demodulated when `self.demodulate` (lines 192-194). -/
noncomputable def weights (c : Conv2dWeightModulate) (style : ℕ → ℕ → ℝ)
    (n o ci ki kj : ℕ) : ℝ :=
  if c.demodulate then c.modWeights style n o ci ki kj * c.demodFactor style n o
  else c.modWeights style n o ci ki kj

/-- `Conv2dWeightModulate.forward` (lines 185-205) on
`x : [b, in_features, h, w]` and `style : [b, in_features]`:
reshape `x` to `[1, b * in_features, h, w]` (line 196), reshape the
per-sample weights to `[b * filters, in_features, kernel, kernel]`
(lines 198-199), run `F.conv2d(..., padding=self.padding, groups=b)`
(line 201) and reinterpret the flat result buffer as
`[b, filters, h, w]` (line 203). -/
noncomputable def forward (c : Conv2dWeightModulate) (x : ℕ → ℕ → ℕ → ℕ → ℝ)
    (style : ℕ → ℕ → ℝ) (b h w : ℕ) (n o i j : ℕ) : ℝ :=
  let xr : ℕ → ℕ → ℕ → ℝ := fun ch i2 j2 =>
    x (ch / c.in_features) (ch % c.in_features) i2 j2
  let wr : ℕ → ℕ → ℕ → ℕ → ℝ := fun oc ci ki kj =>
    c.weights style (oc / c.filters) (oc % c.filters) ci ki kj
  let conv := conv2dGrouped b (b * c.in_features) (b * c.filters)
    c.kernel c.padding h w xr wr
  let hOut := h + 2 * c.padding + 1 - c.kernel
  let wOut := w + 2 * c.padding + 1 - c.kernel
  let flat := ((n * c.filters + o) * h + i) * w + j
  conv (flat / (hOut * wOut)) (flat % (hOut * wOut) / wOut) (flat % wOut)

end Conv2dWeightModulate

/-! ## `labml_nn/gan/stylegan/__init__.py`: path-length penalty -/

/-- The buffers of `PathLengthPenalty` (lines 281-285): `beta`, and the
0-dimensional tensors `steps` and `moving_average`. -/
structure PathLengthPenalty where
  beta : ℝ
  steps : ℝ
  moving_average : ℝ

namespace PathLengthPenalty

/-- `PathLengthPenalty.__init__(beta)` (lines 281-285): both buffers
start at `0.`. -/
def init (beta : ℝ) : PathLengthPenalty := ⟨beta, 0, 0⟩

/-- `path_lengths = (gradients ** 2).sum(dim=2).mean(dim=1).sqrt()`
(line 298) on gradients of shape `[b, L, dl]` (batch, style layers,
latent features). -/
noncomputable def path_lengths (_b L dl : ℕ) (g : ℕ → ℕ → ℕ → ℝ) (i : ℕ) : ℝ :=
  Real.sqrt
    ((∑ l ∈ Finset.range L, ∑ f ∈ Finset.range dl, g i l f ^ 2) / (L : ℝ))

/-- `PathLengthPenalty.forward` (lines 287-312), from the point where the
framework's `torch.autograd.grad` has produced `gradients` — the
gradients of `(images * pl_noise).sum()` with respect to `styles`
(lines 290-296), supplied here as the input `g`.  Returns the loss and
the updated module state.

* Lines 300-304: the loss is `mean((path_lengths - a) ** 2)` with
  `a = moving_average / (1 - beta ** steps)` when `steps > 0`, else `0`.
* Line 306: `mean = path_lengths.mean().detach()`; in the real-number
  model `torch.isnan(mean)` (line 308) is always false, so the update
  always runs.
* Line 309: `moving_average.mul_(beta).add_(mean, alpha=1-beta)` updates
  the buffer in place.
* Line 310: `self.steps.add(1.)` is the *out-of-place* `Tensor.add`; its
  result is discarded, so the stored `steps` is unchanged. -/
noncomputable def forward (plp : PathLengthPenalty) (b L dl : ℕ)
    (g : ℕ → ℕ → ℕ → ℝ) : ℝ × PathLengthPenalty :=
  let pl := path_lengths b L dl g
  let loss :=
    if plp.steps > 0 then
      (∑ i ∈ Finset.range b,
          (pl i - plp.moving_average / (1 - plp.beta ^ plp.steps)) ^ 2) / (b : ℝ)
    else 0
  let mean := (∑ i ∈ Finset.range b, pl i) / (b : ℝ)
  (loss,
   { beta := plp.beta
     steps := plp.steps
     moving_average := plp.beta * plp.moving_average + (1 - plp.beta) * mean })

end PathLengthPenalty

/-! ## Structural configuration of the remaining components -/

/-- The `(in_features, out_features)` pairs of the `GeneratorBlock`s
appended by the loop in `Generator.__init__` (stylegan lines 93-98),
before the final `reversed` (line 100): each iteration sets
`out_features = in_features; in_features = min(in_features * 2,
max_features)` and appends a block with the *updated* `in_features`. -/
def generatorBlocksAux (max_features : ℕ) : ℕ → ℕ → List (ℕ × ℕ)
  | 0, _ => []
  | n + 1, in_features =>
    (min (in_features * 2) max_features, in_features) ::
      generatorBlocksAux max_features n (min (in_features * 2) max_features)

/-- The reversed block list stored in `self.blocks` (line 100). -/
def generatorBlocks (n_layers n_features max_features : ℕ) : List (ℕ × ℕ) :=
  (generatorBlocksAux max_features n_layers n_features).reverse

/-- The `(in_features, out_features)` pairs of the `DiscriminatorBlock`s
appended by the loop in `Discriminator.__init__` (stylegan lines 44-49):
each iteration sets `in_features = out_features;
out_features = min(out_features * 2, max_features)`. -/
def discriminatorBlocksAux (max_features : ℕ) : ℕ → ℕ → List (ℕ × ℕ)
  | 0, _ => []
  | n + 1, out_features =>
    (out_features, min (out_features * 2) max_features) ::
      discriminatorBlocksAux max_features n (min (out_features * 2) max_features)

/-- The block list stored in `Discriminator.blocks` (line 51). -/
def discriminatorBlocks (n_layers n_features max_features : ℕ) : List (ℕ × ℕ) :=
  discriminatorBlocksAux max_features n_layers n_features

/-- The constructor arguments of a `SelfAttention` layer as instantiated
by `RetroModel` and `Encoder`. -/
structure SelfAttentionCfg where
  d_model : ℕ
  n_heads : ℕ
  d_k : ℕ
  is_causal : Bool
  deriving DecidableEq, Repr

/-- The self-attention layers of `RetroModel` (model.py line 447):
`n_layers` copies with `is_causal=True`. -/
def retroModelAttnCfgs (n_layers d_model n_heads d_k : ℕ) :
    List SelfAttentionCfg :=
  List.replicate n_layers ⟨d_model, n_heads, d_k, true⟩

/-- The self-attention layers of `Encoder` (model.py line 407):
`n_layers` copies with `is_causal=False`. -/
def encoderAttnCfgs (n_layers d_model n_heads d_k : ℕ) :
    List SelfAttentionCfg :=
  List.replicate n_layers ⟨d_model, n_heads, d_k, false⟩

/-- The conv-block channel lists passed by `LargeModel.__init__` to the
generic VGG constructor (`distillation/large.py` line 29). -/
def largeModelConvBlocks : List (List ℕ) :=
  [[64, 64], [128, 128], [256, 256, 256], [512, 512, 512], [512, 512, 512]]

/-! ## Helper lemmas -/

/-- Length of the generator block list built by the `Generator.__init__`
loop. -/
theorem generatorBlocksAux_length (mx : ℕ) :
    ∀ n inf, (generatorBlocksAux mx n inf).length = n
  | 0, _ => rfl
  | n + 1, inf => by
    simp [generatorBlocksAux, generatorBlocksAux_length mx n]

/-- Length of the discriminator block list built by the
`Discriminator.__init__` loop. -/
theorem discriminatorBlocksAux_length (mx : ℕ) :
    ∀ n outf, (discriminatorBlocksAux mx n outf).length = n
  | 0, _ => rfl
  | n + 1, outf => by
    simp [discriminatorBlocksAux, discriminatorBlocksAux_length mx n]

/-! ## Claims C1, C9 and C10 -/

/-- C1, counterexample: the claim "every one of the four source files
defines both model layers and a training loop" fails at
`unet/carvana.py`, which is one of the four files but defines neither a
model-layer class nor a training loop — only the `CarvanaDataset`
class. -/
theorem C1_cex :
    ("unet/carvana.py", carvanaPyDefs) ∈ repoFiles ∧
      ¬(definesModelLayers carvanaPyDefs = true ∧
        definesTrainingLoop carvanaPyDefs = true) := by
  decide

/-- C1, amended: `distillation/large.py` and `gan/stylegan/__init__.py`
each define model layers and a training loop; `transformers/retro/model.py`
defines model layers but no training loop (only the `_test` forward-pass
function); `unet/carvana.py` defines only a dataset class, with neither
model layers nor a training loop. -/
theorem C1_thm :
    definesModelLayers largePyDefs = true ∧
    definesTrainingLoop largePyDefs = true ∧
    definesModelLayers styleganPyDefs = true ∧
    definesTrainingLoop styleganPyDefs = true ∧
    definesModelLayers retroModelPyDefs = true ∧
    definesTrainingLoop retroModelPyDefs = false ∧
    definesModelLayers carvanaPyDefs = false ∧
    definesTrainingLoop carvanaPyDefs = false := by
  decide

/-- C9: the repository defines the four named components: the CIFAR-10
VGG variant `LargeModel` with conv blocks
`[[64,64],[128,128],[256,256,256],[512,512,512],[512,512,512]]`, the
StyleGAN `Generator` and `Discriminator` (whose block lists have one
entry per layer), the RETRO model whose decoder self-attention layers are
all causal while its encoder self-attention layers are all non-causal,
and the `CarvanaDataset` loader whose length is the number of image
ids. -/
theorem C9_thm :
    largeModelConvBlocks =
      [[64, 64], [128, 128], [256, 256, 256], [512, 512, 512], [512, 512, 512]] ∧
    (∀ n d m k2, (retroModelAttnCfgs n d m k2).all (fun cfg => cfg.is_causal) = true) ∧
    (∀ n d m k2, (encoderAttnCfgs n d m k2).all (fun cfg => !cfg.is_causal) = true) ∧
    (∀ n f mx, (generatorBlocks n f mx).length = n) ∧
    (∀ n f mx, (discriminatorBlocks n f mx).length = n) ∧
    (∀ ds : CarvanaDataset, ds.len = ds.ids.length) := by
  refine ⟨rfl, ?_, ?_, ?_, ?_, fun _ => rfl⟩
  · intro n d m k2
    simp [retroModelAttnCfgs, List.all_eq_true, List.mem_replicate]
  · intro n d m k2
    simp [encoderAttnCfgs, List.all_eq_true, List.mem_replicate]
  · intro n f mx
    simp [generatorBlocks, generatorBlocksAux_length]
  · intro n f mx
    simp [discriminatorBlocks, discriminatorBlocksAux_length]

/-- C10: no definition in any of the four files is a scheduler, a wire
protocol, a storage engine or a concurrency primitive, and the only
parallelism — the 32 data-loading workers — is an argument passed to the
external framework's DataLoader. -/
theorem C10_thm :
    (repoFiles.all fun f => f.2.all fun d => !isSystemsInfra d) = true ∧
    styleganDataLoaderArgs.num_workers = 32 := by
  decide

/-! ## Claims C3 and C4: the path-length penalty -/

/-- C3: `PathLengthPenalty.forward` returns loss `0` when the stored step
counter is `0`; when `steps > 0` it returns the batch mean of
`(path_length - a)^2`, where `path_length` is the square root of the
head-dimension sum followed by the layer-dimension mean of the squared
gradients, and `a = moving_average / (1 - beta ^ steps)`. -/
theorem C3_thm (plp : PathLengthPenalty) (b L dl : ℕ) (g : ℕ → ℕ → ℕ → ℝ) :
    (plp.steps = 0 → (plp.forward b L dl g).1 = 0) ∧
    (plp.steps > 0 →
      (plp.forward b L dl g).1 =
        (∑ i ∈ Finset.range b,
            (Real.sqrt
                ((∑ l ∈ Finset.range L, ∑ f ∈ Finset.range dl, g i l f ^ 2) /
                  (L : ℝ)) -
              plp.moving_average / (1 - plp.beta ^ plp.steps)) ^ 2) / (b : ℝ)) := by
  constructor
  · intro h0
    simp [PathLengthPenalty.forward, h0]
  · intro hpos
    simp [PathLengthPenalty.forward, if_pos hpos, PathLengthPenalty.path_lengths]

/-- C3, witness: a call with `steps = 0` returns `0`, and a call with
`steps = 1` returns the mean-squared deviation from the bias-corrected
moving average. -/
theorem C3_witness :
    ((PathLengthPenalty.init 0.99).forward 1 1 1 fun _ _ _ => 0).1 = 0 ∧
    ((⟨0.99, 1, 0⟩ : PathLengthPenalty).forward 1 1 1 fun _ _ _ => 0).1 = 0 :=
  ⟨(C3_thm (PathLengthPenalty.init 0.99) 1 1 1 fun _ _ _ => 0).1 rfl,
   by simpa using (C3_thm ⟨0.99, 1, 0⟩ 1 1 1 fun _ _ _ => 0).2 (by norm_num)⟩

/-- C4: after `forward`, `moving_average` is updated to
`beta * old + (1 - beta) * mean` exactly as the claim states, but the
stored `steps` counter is NOT incremented: line 310 calls the
out-of-place `Tensor.add` and discards its result, so `steps` keeps its
old value; in particular it stays `0` forever from the initial state and
the penalty branch is never taken. -/
theorem C4_thm (plp : PathLengthPenalty) (b L dl : ℕ) (g : ℕ → ℕ → ℕ → ℝ) :
    ((plp.forward b L dl g).2.steps = plp.steps) ∧
    ((plp.forward b L dl g).2.moving_average =
      plp.beta * plp.moving_average +
        (1 - plp.beta) *
          ((∑ i ∈ Finset.range b, PathLengthPenalty.path_lengths b L dl g i) /
            (b : ℝ))) ∧
    (((PathLengthPenalty.init 0.99).forward 1 1 1 fun _ _ _ => 0).2.steps = 0) ∧
    ((((PathLengthPenalty.init 0.99).forward 1 1 1 fun _ _ _ => 0).2.forward
        1 1 1 fun _ _ _ => 0).1 = 0) := by
  refine ⟨rfl, rfl, rfl, ?_⟩
  simp [PathLengthPenalty.forward, PathLengthPenalty.init]

/-! ## Claim C7: chunked cross-attention -/

/-- C7: `ChunkedCrossAttention.forward` is the identity on `h` when there
are no chunks; when `chunks > 0` (and the sequence fits the chunked
layout required by the reshape on model.py line 344 and the truncation on
line 377, i.e. `seq ≤ (chunk_len - 1) + chunks * chunk_len`), each output
position `i < seq` is the residual `h` plus the left-shifted attention
output: zero for the first `chunk_len - 1` positions, and position
`i - (chunk_len - 1)` of the per-chunk attention output otherwise — i.e.
the attention result is padded, truncated back to `seq_len` and added to
`h`. -/
theorem C7_thm (ca : ChunkedCrossAttention) (h : ℕ → ℕ → ℕ → ℝ)
    (e : ℕ → ℕ → ℕ → ℕ → ℕ → ℝ) (seq chunks neighbors neighborLen bi i dm : ℕ) :
    (chunks = 0 →
      ca.forward h e seq chunks neighbors neighborLen bi i dm = h bi i dm) ∧
    (0 < chunks → seq ≤ (ca.chunk_len - 1) + chunks * ca.chunk_len → i < seq →
      ca.forward h e seq chunks neighbors neighborLen bi i dm =
        h bi i dm +
          (if i < ca.chunk_len - 1 then 0
           else ca.outputAt h e seq neighbors neighborLen bi
             (i - (ca.chunk_len - 1)) dm)) := by
  constructor
  · intro h0
    simp [ChunkedCrossAttention.forward, h0]
  · intro hpos _ _
    rw [ChunkedCrossAttention.forward, if_neg (Nat.pos_iff_ne_zero.mp hpos), add_comm]

/-- A concrete `ChunkedCrossAttention` instance with unit dimensions and
zero weights, for evaluating the theorems at a concrete input. -/
noncomputable def ccaExample : ChunkedCrossAttention :=
  ⟨1, 1, 1, 1,
   fun _ _ => 0, fun _ => 0, fun _ _ => 0, fun _ => 0,
   fun _ _ => 0, fun _ => 0, fun _ => 0, fun _ => 0,
   fun _ _ => 0, fun _ => 0⟩

/-- C7, witness: at `chunks = 0` the forward pass returns the input
unchanged, and at `chunks = 1` it returns the residual plus the shifted
attention output. -/
theorem C7_witness :
    (ccaExample.forward (fun _ _ _ => 1) (fun _ _ _ _ _ => 0) 1 0 1 1 0 0 0 = 1) ∧
    (ccaExample.forward (fun _ _ _ => 1) (fun _ _ _ _ _ => 0) 1 1 1 1 0 0 0 =
      1 + (if 0 < ccaExample.chunk_len - 1 then 0
           else ccaExample.outputAt (fun _ _ _ => 1) (fun _ _ _ _ _ => 0) 1 1 1 0
             (0 - (ccaExample.chunk_len - 1)) 0)) :=
  ⟨(C7_thm ccaExample (fun _ _ _ => 1) (fun _ _ _ _ _ => 0) 1 0 1 1 0 0 0).1 rfl,
   (C7_thm ccaExample (fun _ _ _ => 1) (fun _ _ _ _ _ => 0) 1 1 1 1 0 0 0).2
     (by decide) (by decide) (by decide)⟩

/-! ## Claim C6: rotary positional embeddings -/

/-- C6: for even `d = 2 * d2` and `i < d2`, the two halves of
`idx_theta` concatenated match the feature dimension
(`2 * numTheta d = d`), `theta i` equals `base ^ (-2 i / d)`, and the
rotary output pair at feature `i` is
`(x_i cos(m θ_i) - x_{i+d2} sin(m θ_i),
  x_{i+d2} cos(m θ_i) + x_i sin(m θ_i))`. -/
theorem C6_thm (base d d2 : ℕ) (x : ℕ → ℕ → ℕ → ℕ → ℝ) (b m hh i : ℕ)
    (hd : d = 2 * d2) (hi : i < d2) :
    2 * RotaryPositionalEmbeddings.numTheta d = d ∧
    RotaryPositionalEmbeddings.theta base d i =
      (base : ℝ) ^ (-(2 * (i : ℝ)) / (d : ℝ)) ∧
    RotaryPositionalEmbeddings.forward base d x b m hh i =
      x b m hh i * Real.cos ((m : ℝ) * RotaryPositionalEmbeddings.theta base d i) -
        x b m hh (i + d2) *
          Real.sin ((m : ℝ) * RotaryPositionalEmbeddings.theta base d i) ∧
    RotaryPositionalEmbeddings.forward base d x b m hh (i + d2) =
      x b m hh (i + d2) *
          Real.cos ((m : ℝ) * RotaryPositionalEmbeddings.theta base d i) +
        x b m hh i *
          Real.sin ((m : ℝ) * RotaryPositionalEmbeddings.theta base d i) := by
  subst hd
  have hnt : RotaryPositionalEmbeddings.numTheta (2 * d2) = d2 := by
    simp [RotaryPositionalEmbeddings.numTheta]
    omega
  have hd2 : 2 * d2 / 2 = d2 := by omega
  have hsub : 2 * d2 - d2 = d2 := by omega
  refine ⟨by omega, ?_, ?_, ?_⟩
  · rw [RotaryPositionalEmbeddings.theta, one_div,
      ← Real.rpow_neg (Nat.cast_nonneg base), neg_div]
  · rw [RotaryPositionalEmbeddings.forward, RotaryPositionalEmbeddings.negHalf]
    simp only [hd2, hsub, hnt, RotaryPositionalEmbeddings.idxTheta2, if_pos hi]
    ring_nf
  · have hni : ¬ i + d2 < d2 := by omega
    rw [RotaryPositionalEmbeddings.forward, RotaryPositionalEmbeddings.negHalf]
    simp only [hd2, hsub, hnt, RotaryPositionalEmbeddings.idxTheta2, if_neg hni,
      Nat.add_sub_cancel]

/-- C6, witness: the rotary output formulas at `d = 2`, `i = 0`. -/
theorem C6_witness :
    2 * RotaryPositionalEmbeddings.numTheta 2 = 2 ∧
    RotaryPositionalEmbeddings.theta 10000 2 0 =
      (10000 : ℝ) ^ (-(2 * ((0 : ℕ) : ℝ)) / ((2 : ℕ) : ℝ)) ∧
    RotaryPositionalEmbeddings.forward 10000 2 (fun _ _ _ _ => 1) 0 1 0 0 =
      1 * Real.cos (((1 : ℕ) : ℝ) * RotaryPositionalEmbeddings.theta 10000 2 0) -
        1 * Real.sin (((1 : ℕ) : ℝ) * RotaryPositionalEmbeddings.theta 10000 2 0) ∧
    RotaryPositionalEmbeddings.forward 10000 2 (fun _ _ _ _ => 1) 0 1 0 (0 + 1) =
      1 * Real.cos (((1 : ℕ) : ℝ) * RotaryPositionalEmbeddings.theta 10000 2 0) +
        1 * Real.sin (((1 : ℕ) : ℝ) * RotaryPositionalEmbeddings.theta 10000 2 0) :=
  C6_thm 10000 2 1 (fun _ _ _ _ => 1) 0 1 0 0 (by decide) (by decide)

/-! ## Claim C2: self-attention scores, masking and softmax -/

/-- C2: the pre-softmax attention scores are the dot products of the
rotary-embedded queries and keys scaled by `1 / sqrt(d_k)`; for causal
attention every score with key position `j` greater than query position
`i` is replaced by `-inf` (`⊥`) and receives softmax weight `0`; for
non-causal attention the scores pass to the softmax unmasked. -/
theorem C2_thm (sa : SelfAttention) (h : ℕ → ℕ → ℕ → ℝ) (seq bi hh i j : ℕ) :
    (sa.attnScores h bi hh i j =
      (∑ dd ∈ Finset.range sa.d_k,
          sa.qRot h bi i hh dd * sa.kRot h bi j hh dd) *
        (1 / Real.sqrt (sa.d_k : ℝ))) ∧
    (sa.is_causal = true → i < j →
      sa.mask_attention (sa.attnScores h) bi hh i j = ⊥ ∧
      sa.attnProb h seq bi hh i j = 0) ∧
    (sa.is_causal = false →
      sa.mask_attention (sa.attnScores h) bi hh i j =
        (sa.attnScores h bi hh i j : WithBot ℝ)) := by
  refine ⟨rfl, ?_, ?_⟩
  · intro hc hij
    have hmask : sa.mask_attention (sa.attnScores h) bi hh i j = ⊥ := by
      rw [SelfAttention.mask_attention, if_neg (by simp [hc]), if_pos]
      rw [SelfAttention.tril, if_neg (by omega)]
    refine ⟨hmask, ?_⟩
    rw [SelfAttention.attnProb, softmaxW, hmask]
    simp [expW]
  · intro hc
    rw [SelfAttention.mask_attention, if_pos hc]

/-- A concrete causal `SelfAttention` instance with unit dimensions and
zero weights. -/
noncomputable def saCausalExample : SelfAttention :=
  ⟨1, 1, 1, true,
   fun _ _ => 0, fun _ => 0, fun _ _ => 0, fun _ => 0,
   fun _ _ => 0, fun _ => 0, fun _ => 1, fun _ => 0,
   fun _ _ => 0, fun _ => 0⟩

/-- The same instance with `is_causal = false`. -/
noncomputable def saNonCausalExample : SelfAttention :=
  ⟨1, 1, 1, false,
   fun _ _ => 0, fun _ => 0, fun _ _ => 0, fun _ => 0,
   fun _ _ => 0, fun _ => 0, fun _ => 1, fun _ => 0,
   fun _ _ => 0, fun _ => 0⟩

/-- C2, witness: at query position `0` and key position `1`, the causal
instance masks the score to `⊥` and gives it softmax weight `0`, while
the non-causal instance passes the score through unmasked. -/
theorem C2_witness :
    (saCausalExample.mask_attention (saCausalExample.attnScores fun _ _ _ => 1)
        0 0 0 1 = ⊥ ∧
      saCausalExample.attnProb (fun _ _ _ => 1) 2 0 0 0 1 = 0) ∧
    (saNonCausalExample.mask_attention
        (saNonCausalExample.attnScores fun _ _ _ => 1) 0 0 0 1 =
      ((saNonCausalExample.attnScores (fun _ _ _ => 1) 0 0 0 1 : ℝ) : WithBot ℝ)) :=
  ⟨(C2_thm saCausalExample (fun _ _ _ => 1) 2 0 0 0 1).2.1 rfl (by decide),
   (C2_thm saNonCausalExample (fun _ _ _ => 1) 2 0 0 0 1).2.2 rfl⟩

/-! ## Claim C8: mask normalization in `CarvanaDataset.__getitem__` -/

/-- Every list element is bounded by the max fold. -/
theorem le_foldr_max (l : List ℚ) (init : ℚ) : ∀ x ∈ l, x ≤ l.foldr max init := by
  induction l with
  | nil => simp
  | cons a t ih =>
    intro x hx
    rcases List.mem_cons.mp hx with h | h
    · subst h; exact le_max_left _ _
    · exact le_trans (ih x h) (le_max_right _ _)

/-- Folding `max` over a list after dividing everything by a positive
constant divides the fold. -/
theorem foldr_max_div (l : List ℚ) (init M : ℚ) (hM : 0 < M) :
    (l.map (· / M)).foldr max (init / M) = l.foldr max init / M := by
  induction l with
  | nil => rfl
  | cons a t ih =>
    simp only [List.map_cons, List.foldr_cons, ih]
    exact max_div_div_right hM.le a _

/-- An in-range entry is among the tensor's pixel values. -/
theorem mem_pixList (c h w : ℕ) (t : ℕ → ℕ → ℕ → ℚ) (ci i j : ℕ)
    (hc : ci < c) (hi : i < h) (hj : j < w) : t ci i j ∈ pixList c h w t := by
  refine List.mem_flatMap.mpr ⟨ci, List.mem_range.mpr hc, ?_⟩
  refine List.mem_flatMap.mpr ⟨i, List.mem_range.mpr hi, ?_⟩
  exact List.mem_map.mpr ⟨j, List.mem_range.mpr hj, rfl⟩

/-- Dividing a tensor pointwise divides its pixel list. -/
theorem pixList_div (c h w : ℕ) (t : ℕ → ℕ → ℕ → ℚ) (M : ℚ) :
    pixList c h w (fun ci i j => t ci i j / M) = (pixList c h w t).map (· / M) := by
  simp [pixList, List.map_flatMap, Function.comp_def]

/-- A tensor with nonnegative entries and a nonzero in-range entry has a
positive maximum. -/
theorem tensorMax_pos (c h w : ℕ) (t : ℕ → ℕ → ℕ → ℚ)
    (hnn : ∀ ci i j, 0 ≤ t ci i j)
    (hnz : ∃ ci < c, ∃ i < h, ∃ j < w, t ci i j ≠ 0) :
    0 < tensorMax c h w t := by
  obtain ⟨ci, hc, i, hi, j, hj, hne⟩ := hnz
  have hmem := mem_pixList c h w t ci i j hc hi hj
  have hle := le_foldr_max (pixList c h w t) (t 0 0 0) _ hmem
  exact lt_of_lt_of_le (lt_of_le_of_ne (hnn ci i j) (Ne.symm hne)) hle

/-- Dividing a tensor by its (positive) maximum yields maximum exactly
`1`. -/
theorem tensorMax_div_self (c h w : ℕ) (t : ℕ → ℕ → ℕ → ℚ)
    (hnn : ∀ ci i j, 0 ≤ t ci i j)
    (hnz : ∃ ci < c, ∃ i < h, ∃ j < w, t ci i j ≠ 0) :
    tensorMax c h w (fun ci i j => t ci i j / tensorMax c h w t) = 1 := by
  have hMpos : 0 < tensorMax c h w t := tensorMax_pos c h w t hnn hnz
  rw [tensorMax, pixList_div, foldr_max_div _ _ _ hMpos, ← tensorMax,
    div_self hMpos.ne']

/-- Looking up a key in the identity-keyed image dictionary succeeds for
any key in the stem list. -/
theorem lookup_map_self (l : List String) (key : String) (hk : key ∈ l) :
    (l.map fun s => (s, s)).lookup key = some key := by
  induction l with
  | nil => simp at hk
  | cons a t ih =>
    by_cases h : key = a
    · subst h; simp [List.lookup]
    · have hb : (key == a) = false := beq_eq_false_iff_ne.mpr h
      rcases List.mem_cons.mp hk with h2 | h2
      · exact absurd h2 h
      · simp only [List.map_cons, List.lookup, hb]
        exact ih h2

/-- Looking up a key in the mask dictionary fails exactly when no mask
stem minus its last 5 characters equals the key. -/
theorem lookup_masks_eq_none (maskStems : List String) (key : String)
    (hno : ∀ m ∈ maskStems, m.dropRight 5 ≠ key) :
    (maskStems.map fun s => (s.dropRight 5, s)).lookup key = none := by
  induction maskStems with
  | nil => rfl
  | cons a t ih =>
    have ha : a.dropRight 5 ≠ key := hno a (List.mem_cons_self a t)
    have hb : (key == a.dropRight 5) = false :=
      beq_eq_false_iff_ne.mpr fun h => ha h.symm
    simp only [List.map_cons, List.lookup, hb]
    exact ih fun m hm => hno m (List.mem_cons_of_mem a hm)

/-- C8: `__getitem__` divides the mask tensor by its maximum with no
guard, so whenever the loaded mask has nonnegative pixels with at least
one nonzero in-range pixel, the returned mask has maximum exactly `1`;
and the item access presupposes a mask file whose stem minus its last 5
characters equals the image stem — if no such file exists the access
fails (`KeyError`, modelled as `none`). -/
theorem C8_thm (imageStems maskStems : List String) (c h w : ℕ)
    (load : String → ℕ → ℕ → ℕ → ℚ) (idx : ℕ) (id_ : String)
    (hid : (CarvanaDataset.mk2 imageStems maskStems).ids[idx]? = some id_) :
    ((∀ m ∈ maskStems, m.dropRight 5 ≠ id_) →
      (CarvanaDataset.mk2 imageStems maskStems).getitem c h w load idx = none) ∧
    (∀ maskFile,
      (CarvanaDataset.mk2 imageStems maskStems).masks.lookup id_ = some maskFile →
      (∀ ci i j, 0 ≤ load maskFile ci i j) →
      (∃ ci < c, ∃ i < h, ∃ j < w, load maskFile ci i j ≠ 0) →
      (CarvanaDataset.mk2 imageStems maskStems).getitem c h w load idx =
        some (load id_,
          fun ci i j => load maskFile ci i j / tensorMax c h w (load maskFile)) ∧
      tensorMax c h w
        (fun ci i j => load maskFile ci i j / tensorMax c h w (load maskFile)) = 1) := by
  have hmem : id_ ∈ imageStems := by
    have := List.getElem?_mem hid
    simpa [CarvanaDataset.mk2] using this
  have himg : (CarvanaDataset.mk2 imageStems maskStems).images.lookup id_ =
      some id_ := by
    simpa [CarvanaDataset.mk2] using lookup_map_self imageStems id_ hmem
  constructor
  · intro hno
    have hm : (CarvanaDataset.mk2 imageStems maskStems).masks.lookup id_ = none := by
      simpa [CarvanaDataset.mk2] using lookup_masks_eq_none maskStems id_ hno
    rw [CarvanaDataset.getitem, hid]
    simp [himg, hm]
  · intro maskFile hmk hnn hnz
    refine ⟨?_, tensorMax_div_self c h w (load maskFile) hnn hnz⟩
    rw [CarvanaDataset.getitem, hid]
    simp [himg, hmk]

/-- C8, witness: a one-image dataset whose mask file stem
`"car1_mask"` minus its 5-character suffix matches the image stem
`"car1"`; with a constant mask value `2` the returned mask has maximum
exactly `1`. -/
theorem C8_witness :
    (CarvanaDataset.mk2 ["car1"] ["car1_mask"]).getitem 1 1 1
        (fun _ _ _ _ => 2) 0 =
      some ((fun _ _ _ => (2 : ℚ)),
        fun _ _ _ => (2 : ℚ) / tensorMax 1 1 1 fun _ _ _ => (2 : ℚ)) ∧
    tensorMax 1 1 1 (fun _ _ _ => (2 : ℚ) / tensorMax 1 1 1 fun _ _ _ => (2 : ℚ)) = 1 :=
  (C8_thm ["car1"] ["car1_mask"] 1 1 1 (fun _ _ _ _ => 2) 0 "car1" rfl).2
    "car1_mask" rfl (fun _ _ _ => by norm_num)
    ⟨0, by norm_num, 0, by norm_num, 0, by norm_num, by norm_num⟩

/-! ## Claim C5: the modulated grouped convolution is a per-sample
convolution -/

/-- C5: for `n < b`, `o < out_features`, odd kernel and in-range spatial
position, `Conv2dWeightModulate.forward` equals the per-sample
convolution of `x[n]` (zero-padded by `(kernel-1)//2`) with the
modulated — and, when `demodulate`, demodulated — per-sample weights:
the reshape to one batch with `groups = b` computes exactly the
per-sample convolution, and the output occupies the same `[b, out, h, w]`
shape as the input. -/
theorem C5_thm (c : Conv2dWeightModulate) (x : ℕ → ℕ → ℕ → ℕ → ℝ)
    (style : ℕ → ℕ → ℝ) (b h w n o i j : ℕ)
    (hn : n < b) (ho : o < c.out_features) (hk : c.kernel % 2 = 1)
    (hi : i < h) (hj : j < w) :
    c.forward x style b h w n o i j =
      ∑ ci ∈ Finset.range c.in_features, ∑ ki ∈ Finset.range c.kernel,
        ∑ kj ∈ Finset.range c.kernel,
          paddedAt h w (x n) ci ((i : ℤ) + (ki : ℤ) - (c.padding : ℤ))
              ((j : ℤ) + (kj : ℤ) - (c.padding : ℤ)) *
            c.weights style n o ci ki kj := by
  have hb : 0 < b := Nat.lt_of_le_of_lt (Nat.zero_le n) hn
  have ho2 : o < c.filters := ho
  have hf : 0 < c.filters := Nat.lt_of_le_of_lt (Nat.zero_le o) ho2
  have hh0 : 0 < h := Nat.lt_of_le_of_lt (Nat.zero_le i) hi
  have hw0 : 0 < w := Nat.lt_of_le_of_lt (Nat.zero_le j) hj
  have hk2 : c.kernel = 2 * c.padding + 1 := by
    rw [Conv2dWeightModulate.padding]; omega
  have hOut : h + 2 * c.padding + 1 - c.kernel = h := by omega
  have hwOut : w + 2 * c.padding + 1 - c.kernel = w := by omega
  have hhw : 0 < h * w := Nat.mul_pos hh0 hw0
  have hflat : ((n * c.filters + o) * h + i) * w + j =
      h * w * (n * c.filters + o) + (i * w + j) := by ring
  have hr : i * w + j < h * w := by
    have h1 : i * w + j < (i + 1) * w := by
      have := hj; nlinarith
    have h2 : (i + 1) * w ≤ h * w := Nat.mul_le_mul_right w hi
    omega
  have hdiv : (((n * c.filters + o) * h + i) * w + j) / (h * w) =
      n * c.filters + o := by
    rw [hflat, Nat.mul_add_div hhw, Nat.div_eq_of_lt hr, add_zero]
  have hmod1 : (((n * c.filters + o) * h + i) * w + j) % (h * w) = i * w + j := by
    rw [hflat, Nat.mul_add_mod, Nat.mod_eq_of_lt hr]
  have hdiv2 : (i * w + j) / w = i := by
    rw [mul_comm i w, Nat.mul_add_div hw0, Nat.div_eq_of_lt hj, add_zero]
  have hmodw : (((n * c.filters + o) * h + i) * w + j) % w = j := by
    have heq : ((n * c.filters + o) * h + i) * w + j =
        w * ((n * c.filters + o) * h + i) + j := by ring
    rw [heq, Nat.mul_add_mod, Nat.mod_eq_of_lt hj]
  have hgroup : (n * c.filters + o) / c.filters = n := by
    rw [mul_comm n c.filters, Nat.mul_add_div hf, Nat.div_eq_of_lt ho2, add_zero]
  have hmodf : (n * c.filters + o) % c.filters = o := by
    rw [mul_comm n c.filters, Nat.mul_add_mod, Nat.mod_eq_of_lt ho2]
  have hcig : b * c.in_features / b = c.in_features :=
    Nat.mul_div_cancel_left c.in_features hb
  have hcog : b * c.filters / b = c.filters :=
    Nat.mul_div_cancel_left c.filters hb
  simp only [Conv2dWeightModulate.forward, conv2dGrouped]
  rw [hOut, hwOut, hdiv, hmod1, hdiv2, hmodw, hcig, hcog, hgroup, hmodf]
  refine Finset.sum_congr rfl fun ci hci => Finset.sum_congr rfl fun ki _ =>
    Finset.sum_congr rfl fun kj _ => ?_
  have hci2 : ci < c.in_features := List.mem_range.mp (by simpa using hci)
  have hcin0 : 0 < c.in_features := Nat.lt_of_le_of_lt (Nat.zero_le ci) hci2
  have hdivc : (n * c.in_features + ci) / c.in_features = n := by
    rw [mul_comm n c.in_features, Nat.mul_add_div hcin0, Nat.div_eq_of_lt hci2,
      add_zero]
  have hmodc : (n * c.in_features + ci) % c.in_features = ci := by
    rw [mul_comm n c.in_features, Nat.mul_add_mod, Nat.mod_eq_of_lt hci2]
  simp only [paddedAt, hdivc, hmodc]

/-- A concrete `Conv2dWeightModulate` with unit channels, a 1×1 kernel,
no demodulation and zero weights. -/
noncomputable def convModExample : Conv2dWeightModulate :=
  ⟨1, 1, 1, false, 1, 0, fun _ _ _ _ => 0⟩

/-- C5, witness: the per-sample convolution identity evaluated on a
1-sample, 1-channel, 1×1 input. -/
theorem C5_witness :
    convModExample.forward (fun _ _ _ _ => 0) (fun _ _ => 0) 1 1 1 0 0 0 0 =
      ∑ ci ∈ Finset.range convModExample.in_features,
        ∑ ki ∈ Finset.range convModExample.kernel,
          ∑ kj ∈ Finset.range convModExample.kernel,
            paddedAt 1 1 ((fun _ _ _ _ => (0 : ℝ)) 0) ci
                ((0 : ℤ) + (ki : ℤ) - (convModExample.padding : ℤ))
                ((0 : ℤ) + (kj : ℤ) - (convModExample.padding : ℤ)) *
              convModExample.weights (fun _ _ => 0) 0 0 ci ki kj :=
  C5_thm convModExample (fun _ _ _ _ => 0) (fun _ _ => 0) 1 1 1 0 0 0 0
    (by decide) (by decide) (by decide) (by decide) (by decide)
